import Mathlib

/-!
Verification of the clip-bridge process supervisor (src/src/main.js).

The supervisor spawns an external worker process (server or client role),
reassembles its stdout/stderr byte chunks into lines, classifies lines by
substring/regex matching, maintains a registry of connected peers, and
resolves each start attempt exactly once via a JavaScript Promise.

The embedding below is a shallow model of the relevant handlers:
  - `splitNl`, `feed`, `feedAll`: the per-stream line assembler
    (`buffer.split('\n')` with `lines.pop()` kept as the pending fragment);
  - `parseClientEvents`, `mapSet`, `removeFirstByAddress`: the connected
    client registry updated from classified log lines;
  - `SrvState`/`srvStep`: the `start-server` Promise executor (readiness
    lines on either stream, dependency errors, the 60s startup timeout,
    the delayed HTTP probe, process exit and spawn error);
  - `CliState`/`cliStep`: the `start-client` Promise executor;
  - `RunState`/`runStep`: the running phase with the `stop-server` handler
    (grace timer, SIGKILL, exit confirmation, registry clears);
  - `startServerCall`/`stopServerCall` and the client analogues: the
    synchronous guard prefixes of the four IPC handlers.
Strings are modelled as `List Char`; `Date.now()` timestamps as `Nat`;
JavaScript Promise settlement (first resolve/reject wins) as `settleP`.
-/

/-- One character of the JavaScript whitespace class relevant to `trim()`. -/
def isJsWs (c : Char) : Bool :=
  c = ' ' || c = '\t' || c = '\n' || c = '\r' || c = '\x0b' || c = '\x0c'

/-- JavaScript `String.prototype.trim`. -/
def jsTrim (l : List Char) : List Char :=
  ((l.dropWhile isJsWs).reverse.dropWhile isJsWs).reverse

/-- Does `l` start with `p`? (used to embed literal pattern matching). -/
def startsWith : List Char → List Char → Bool
  | _, [] => true
  | [], _ :: _ => false
  | c :: cs, p :: ps => c = p && startsWith cs ps

/-- JavaScript `String.prototype.includes`: `sub` occurs inside `l`. -/
def containsSub (l sub : List Char) : Bool :=
  match l with
  | [] => startsWith [] sub
  | _ :: rest => startsWith l sub || containsSub rest sub

/-- JavaScript `str.split('\n')`: all segments, including a (possibly empty)
trailing segment after the last newline. -/
def splitNl : List Char → List (List Char)
  | [] => [[]]
  | c :: cs =>
      if c = '\n' then [] :: splitNl cs
      else
        match splitNl cs with
        | [] => [[c]]
        | h :: t => (c :: h) :: t

/-- Proof-friendly form of `splitNl`: the complete lines (all segments before
the last) paired with the trailing fragment (the last segment). -/
def splitNlF : List Char → List (List Char) × List Char
  | [] => ([], [])
  | c :: cs =>
      let r := splitNlF cs
      if c = '\n' then ([] :: r.1, r.2)
      else
        match r.1 with
        | [] => ([], c :: r.2)
        | h :: t => ((c :: h) :: t, r.2)

/-- The line assembler step, from main.js:
`logBuffer += data; const lines = logBuffer.split('\n'); logBuffer = lines.pop();`
returning the emitted complete lines and the new pending fragment. -/
def feed (buffer chunk : List Char) : List (List Char) × List Char :=
  let lines := splitNl (buffer ++ chunk)
  (lines.dropLast, lines.getLastD [])

/-- Iterated `feed` over a sequence of chunks, collecting all emitted lines. -/
def feedAll (buffer : List Char) : List (List Char) → List (List Char) × List Char
  | [] => ([], buffer)
  | ch :: rest =>
      let r := feed buffer ch
      let r2 := feedAll r.2 rest
      (r.1 ++ r2.1, r2.2)

/-- Greedy parse of the regex fragment `\d+\.\d+\.\d+\.\d+` at the head of the
input, returning the captured dotted quad and the remaining input. (Since a
dot is not a digit, the greedy `\d+` needs no backtracking here.) -/
def parseIPv4 (l : List Char) : Option (List Char × List Char) :=
  let d1 := l.takeWhile Char.isDigit
  let r1 := l.dropWhile Char.isDigit
  if d1 = [] then none else
  match r1 with
  | '.' :: r2 =>
      let d2 := r2.takeWhile Char.isDigit
      let r3 := r2.dropWhile Char.isDigit
      if d2 = [] then none else
      match r3 with
      | '.' :: r4 =>
          let d3 := r4.takeWhile Char.isDigit
          let r5 := r4.dropWhile Char.isDigit
          if d3 = [] then none else
          match r5 with
          | '.' :: r6 =>
              let d4 := r6.takeWhile Char.isDigit
              let r7 := r6.dropWhile Char.isDigit
              if d4 = [] then none else
              some (d1 ++ '.' :: d2 ++ '.' :: d3 ++ '.' :: d4, r7)
          | _ => none
      | _ => none
  | _ => none

/-- Literal part of `/New WebSocket connection from (\d+\.\d+\.\d+\.\d+)/`. -/
def connectLit : List Char := "New WebSocket connection from ".toList

/-- First match of the connection regex in the line: the regex engine tries
every start position left to right, matching the literal and then the
dotted-quad capture group. -/
def scanConnect : List Char → Option (List Char)
  | [] => none
  | c :: rest =>
      if startsWith (c :: rest) connectLit then
        match parseIPv4 (List.drop connectLit.length (c :: rest)) with
        | some (addr, _) => some addr
        | none => scanConnect rest
      else scanConnect rest

/-- Literal parts of `/Client (\d+\.\d+\.\d+\.\d+) disconnected/`. -/
def disconnectLit1 : List Char := "Client ".toList

def disconnectLit2 : List Char := " disconnected".toList

/-- First match of the disconnection regex in the line. -/
def scanDisconnect : List Char → Option (List Char)
  | [] => none
  | c :: rest =>
      if startsWith (c :: rest) disconnectLit1 then
        match parseIPv4 (List.drop disconnectLit1.length (c :: rest)) with
        | some (addr, r) =>
            if startsWith r disconnectLit2 then some addr else scanDisconnect rest
        | none => scanDisconnect rest
      else scanDisconnect rest

/-- One connected client record, as built in `parseClientEvents`.
`connectedAt` keeps the insertion timestamp (the code stores a formatted
time string derived from the same clock used for the id). -/
structure ClientInfo where
  id : List Char
  address : List Char
  name : List Char
  connectedAt : Nat
deriving DecidableEq

/-- The `connectedClients` JavaScript `Map`, as an insertion-ordered
association list from client id to client info. -/
abbrev Registry := List (List Char × ClientInfo)

/-- JavaScript `Map.set`: overwrite in place when the key exists, otherwise
append at the end (insertion order preserved). -/
def mapSet (reg : Registry) (k : List Char) (v : ClientInfo) : Registry :=
  if reg.any (fun e => decide (e.1 = k)) then
    reg.map (fun e => if e.1 = k then (k, v) else e)
  else reg ++ [(k, v)]

/-- The disconnect loop of `parseClientEvents`: scan the entries in insertion
order, delete the first one whose address matches, then break. -/
def removeFirstByAddress : Registry → List Char → Registry
  | [], _ => []
  | e :: rest, addr =>
      if e.2.address = addr then rest
      else e :: removeFirstByAddress rest addr

/-- Digits of a natural number, for the synthesized client id. -/
def natChars (n : Nat) : List Char := (Nat.repr n).toList

/-- The synthesized client id from main.js:
`` `client-${clientAddress}-${Date.now()}` ``. -/
def mkClientId (addr : List Char) (now : Nat) : List Char :=
  "client-".toList ++ addr ++ '-' :: natChars now

/-- `parseClientEvents` from main.js, restricted to its registry effect:
try the connection regex first (insert, keyed by the synthesized id), else
the disconnection regex (remove the first entry with that address), else
leave the registry unchanged. `now` is the `Date.now()` reading. -/
def parseClientEvents (reg : Registry) (line : List Char) (now : Nat) : Registry :=
  match scanConnect line with
  | some addr =>
      mapSet reg (mkClientId addr now)
        { id := mkClientId addr now
          address := addr
          name := "Client-".toList ++ addr
          connectedAt := now }
  | none =>
      match scanDisconnect line with
      | some addr => removeFirstByAddress reg addr
      | none => reg

/-- The settled value of a JavaScript Promise: `resolve(msg)` or
`reject(new Error(err))`. -/
inductive JsResult where
  | resolved (msg : List Char)
  | rejected (err : List Char)
deriving DecidableEq

/-- JavaScript Promise settlement: the first `resolve`/`reject` call wins,
every later call is a no-op. -/
def settleP : Option JsResult → JsResult → Option JsResult
  | some r, _ => some r
  | none, r => some r

/-- The readiness marker looked for on both server streams. -/
def readyMarker : List Char := "Server started successfully".toList

/-- Message resolved on a readiness line. -/
def srvSuccessMsg : List Char := "Server started successfully".toList

/-- Message resolved when the delayed HTTP probe connects. -/
def srvProbeMsg : List Char :=
  "Server started successfully (verified by connection)".toList

/-- Error rejected when the 60s startup timeout fires. -/
def srvTimeoutMsg : List Char := "Server startup timeout".toList

/-- Fatal-dependency substrings checked on stderr lines. -/
def importErrLit : List Char := "ImportError".toList

def moduleErrLit : List Char := "ModuleNotFoundError".toList

/-- Leading text of the dependency-error rejection:
`` `Python dependency error: ${line}` ``. -/
def depErrTag : List Char := "Python dependency error: ".toList

/-- Leading text accumulated into `allOutput` for each stderr line. -/
def stderrTag : List Char := "STDERR: ".toList

/-- Digits (with sign) of an exit code. -/
def intChars (i : Int) : List Char := (toString i).toList

/-- `` `Server exited with code ${code}. Output: ${allOutput}` `` -/
def srvExitMsg (code : Int) (out : List Char) : List Char :=
  "Server exited with code ".toList ++ intChars code
    ++ ". Output: ".toList ++ out

/-- `` `Failed to start server: ${error.message}` `` -/
def srvSpawnErrMsg (msg : List Char) : List Char :=
  "Failed to start server: ".toList ++ msg

/-- State of one `start-server` attempt: the closure variables of the
Promise executor in main.js plus the shared module state it touches.
`handle` is `serverProcess !== null`; `procAlive` tracks the underlying OS
process; `killSent` whether `kill()` was invoked; `timeoutPending` and
`probePending` whether the 60s timeout and the 3s probe timer are still
pending; `settled` the Promise state; `registry` the `connectedClients`
map with `clearCount` counting its `clear()` calls; `allOutput` the
accumulated stderr text. -/
structure SrvState where
  hasResolved : Bool
  handle : Bool
  procAlive : Bool
  killSent : Bool
  timeoutPending : Bool
  probePending : Bool
  settled : Option JsResult
  registry : Registry
  clearCount : Nat
  allOutput : List Char
deriving DecidableEq

/-- Events delivered to the `start-server` executor by the event loop:
a complete line on one of the streams (with the `Date.now()` reading),
one of the two timers firing (`tcpOk` tells whether the probe's HTTP
request succeeds), the process `exit` event, or a spawn `error` event. -/
inductive SrvEvent where
  | stdoutLine (l : List Char) (now : Nat)
  | stderrLine (l : List Char) (now : Nat)
  | timeoutFires
  | probeFires (tcpOk : Bool)
  | exited (code : Int)
  | errored (msg : List Char)

/-- The stdout per-line handler (main.js 537-551): skip blank lines, update
the registry via `parseClientEvents`, then resolve on the readiness marker
when `hasResolved` is not yet set (clearing the startup timeout). -/
def srvStdoutLine (st : SrvState) (l : List Char) (now : Nat) : SrvState :=
  if jsTrim l = [] then st
  else
    let st1 := { st with registry := parseClientEvents st.registry l now }
    if containsSub l readyMarker && !st1.hasResolved then
      { st1 with hasResolved := true, timeoutPending := false,
                 settled := settleP st1.settled (JsResult.resolved srvSuccessMsg) }
    else st1

/-- The stderr per-line handler (main.js 564-599): skip blank lines,
accumulate `allOutput`, update the registry, resolve on the readiness
marker, then reject on a fatal-dependency substring (`ImportError` or
`ModuleNotFoundError`) when still unresolved — dropping the process handle
without killing the process. -/
def srvStderrLine (st : SrvState) (l : List Char) (now : Nat) : SrvState :=
  if jsTrim l = [] then st
  else
    let st1 := { st with
      allOutput := st.allOutput ++ stderrTag ++ l ++ ['\n'],
      registry := parseClientEvents st.registry l now }
    let st2 :=
      if containsSub l readyMarker && !st1.hasResolved then
        { st1 with hasResolved := true, timeoutPending := false,
                   settled := settleP st1.settled (JsResult.resolved srvSuccessMsg) }
      else st1
    if !st2.hasResolved && (containsSub l importErrLit || containsSub l moduleErrLit) then
      { st2 with hasResolved := true, timeoutPending := false, handle := false,
                 settled := settleP st2.settled (JsResult.rejected (depErrTag ++ l)) }
    else st2

/-- The 60s startup timeout callback (main.js 518-524): kill the process if
the handle is still set, then reject. It does not set `hasResolved`. -/
def srvTimeout (st : SrvState) : SrvState :=
  if !st.timeoutPending then st
  else
    let st1 := { st with timeoutPending := false }
    let st2 :=
      if st1.handle then
        { st1 with killSent := true, procAlive := false, handle := false }
      else st1
    { st2 with settled := settleP st2.settled (JsResult.rejected srvTimeoutMsg) }

/-- The delayed probe (main.js 627-649): after 3s, if the handle is set and
the attempt is unresolved, issue an HTTP request to the configured port;
on success re-check `hasResolved` and resolve, clearing the timeout. The
probe timer handle is never stored, so it is never cancelled. -/
def srvProbe (st : SrvState) (tcpOk : Bool) : SrvState :=
  if !st.probePending then st
  else
    let st1 := { st with probePending := false }
    if st1.handle && !st1.hasResolved then
      if tcpOk then
        if !st1.hasResolved then
          { st1 with hasResolved := true, timeoutPending := false,
                     settled := settleP st1.settled (JsResult.resolved srvProbeMsg) }
        else st1
      else st1
    else st1

/-- The process `exit` handler (main.js 603-614): drop the handle, clear the
connected-client registry, and reject only when the exit code is non-zero
and the attempt is unresolved (a zero exit before resolution settles
nothing and leaves the startup timeout pending). -/
def srvExited (st : SrvState) (code : Int) : SrvState :=
  let st1 := { st with handle := false, procAlive := false,
                       registry := [], clearCount := st.clearCount + 1 }
  if code ≠ 0 && !st1.hasResolved then
    { st1 with hasResolved := true, timeoutPending := false,
               settled := settleP st1.settled
                 (JsResult.rejected (srvExitMsg code st1.allOutput)) }
  else st1

/-- The process `error` handler (main.js 616-624). -/
def srvErrored (st : SrvState) (msg : List Char) : SrvState :=
  if !st.hasResolved then
    { st with hasResolved := true, timeoutPending := false, handle := false,
              settled := settleP st.settled (JsResult.rejected (srvSpawnErrMsg msg)) }
  else st

/-- One event-loop step of the `start-server` attempt. -/
def srvStep (st : SrvState) : SrvEvent → SrvState
  | SrvEvent.stdoutLine l now => srvStdoutLine st l now
  | SrvEvent.stderrLine l now => srvStderrLine st l now
  | SrvEvent.timeoutFires => srvTimeout st
  | SrvEvent.probeFires tcpOk => srvProbe st tcpOk
  | SrvEvent.exited code => srvExited st code
  | SrvEvent.errored msg => srvErrored st msg

/-- Run a sequence of events (the single coordination thread delivers them
one at a time; same-tick races are adjacent events). -/
def srvRun (st : SrvState) : List SrvEvent → SrvState
  | [] => st
  | e :: es => srvRun (srvStep st e) es

/-- State right after `spawn` succeeds and the Promise executor is entered:
both timers pending, nothing resolved, process alive, registry empty. -/
def srvInit : SrvState :=
  { hasResolved := false, handle := true, procAlive := true, killSent := false,
    timeoutPending := true, probePending := true, settled := none,
    registry := [], clearCount := 0, allOutput := [] }

/-- The readiness marker looked for on both client streams. -/
def cliReadyMarker : List Char := "Connected to server successfully".toList

/-- Message resolved on a client readiness line. -/
def cliSuccessMsg : List Char := "Client connected successfully".toList

/-- Message resolved when the client timeout finds the process still alive. -/
def cliAssumedMsg : List Char :=
  "Client started (assumed running after timeout)".toList

/-- Error rejected when the client timeout gives up. -/
def cliTimeoutMsg : List Char := "Client startup timeout".toList

/-- `` `Client exited with code ${code}` `` -/
def cliExitMsg (code : Int) : List Char :=
  "Client exited with code ".toList ++ intChars code

/-- State of one `start-client` attempt (main.js 864-948). The executor has
no `hasResolved` guard; only the Promise itself limits settlement to one
outcome. `hasPid`/`exitCode` model `clientProcess.pid` being set and
`clientProcess.exitCode`, read by the timeout callback. -/
structure CliState where
  handle : Bool
  hasPid : Bool
  exitCode : Option Int
  killSent : Bool
  timeoutPending : Bool
  settled : Option JsResult
deriving DecidableEq

/-- Events delivered to the `start-client` executor. -/
inductive CliEvent where
  | stdoutLine (l : List Char)
  | stderrLine (l : List Char)
  | timeoutFires
  | exited (code : Int)

/-- The client stdout per-line handler (main.js 898-906): skip blank lines,
clear the timeout and resolve on the readiness marker (unguarded). -/
def cliStdoutLine (st : CliState) (l : List Char) : CliState :=
  if jsTrim l = [] then st
  else if containsSub l cliReadyMarker then
    { st with timeoutPending := false,
              settled := settleP st.settled (JsResult.resolved cliSuccessMsg) }
  else st

/-- The client stderr per-line handler (main.js 916-937): same readiness
check; the rest of the handler only annotates the forwarded log lines. -/
def cliStderrLine (st : CliState) (l : List Char) : CliState :=
  if jsTrim l = [] then st
  else if containsSub l cliReadyMarker then
    { st with timeoutPending := false,
              settled := settleP st.settled (JsResult.resolved cliSuccessMsg) }
  else st

/-- The 10s client timeout callback (main.js 865-886): if the handle is set
and the process looks alive (`pid` set, `exitCode === null`), resolve
success ("assumed running after timeout") and return; otherwise send
SIGTERM when the handle is set, drop the handle and reject. -/
def cliTimeout (st : CliState) : CliState :=
  if !st.timeoutPending then st
  else
    let st1 := { st with timeoutPending := false }
    if st1.handle then
      if st1.hasPid && st1.exitCode.isNone then
        { st1 with settled := settleP st1.settled (JsResult.resolved cliAssumedMsg) }
      else
        { st1 with killSent := true, handle := false,
                   settled := settleP st1.settled (JsResult.rejected cliTimeoutMsg) }
    else
      { st1 with handle := false,
                 settled := settleP st1.settled (JsResult.rejected cliTimeoutMsg) }

/-- The client `exit` handler (main.js 940-947): drop the handle; reject
only on a non-zero code (zero leaves the timeout pending, as on the
server side). -/
def cliExited (st : CliState) (code : Int) : CliState :=
  let st1 := { st with handle := false, exitCode := some code }
  if code ≠ 0 then
    { st1 with timeoutPending := false,
               settled := settleP st1.settled (JsResult.rejected (cliExitMsg code)) }
  else st1

/-- One event-loop step of the `start-client` attempt. -/
def cliStep (st : CliState) : CliEvent → CliState
  | CliEvent.stdoutLine l => cliStdoutLine st l
  | CliEvent.stderrLine l => cliStderrLine st l
  | CliEvent.timeoutFires => cliTimeout st
  | CliEvent.exited code => cliExited st code

/-- Run a sequence of client events. -/
def cliRun (st : CliState) : List CliEvent → CliState
  | [] => st
  | e :: es => cliRun (cliStep st e) es

/-- State right after the client `spawn` succeeds. -/
def cliInit : CliState :=
  { handle := true, hasPid := true, exitCode := none, killSent := false,
    timeoutPending := true, settled := none }

/-- Message resolved by `stop-server` when the exit event arrives within the
grace period. -/
def stopGraceMsg : List Char := "Server stopped gracefully".toList

/-- Message resolved by `stop-server` when the grace timer fires first. -/
def stopForcedMsg : List Char := "Server stopped (forced)".toList

/-- State of the running server phase, covering the `stop-server` handler
(main.js 656-681) together with the exit handler attached by
`start-server` (main.js 603-614), which is still listening. -/
structure RunState where
  handle : Bool
  procAlive : Bool
  sigtermSent : Bool
  sigkillSent : Bool
  stopRequested : Bool
  graceTimerPending : Bool
  stopSettled : Option JsResult
  exitConfirmed : Bool
  registry : Registry
  clearCount : Nat
deriving DecidableEq

/-- Events in the running phase: the synchronous part of a `stop-server`
call, the 5s grace timer firing, and the process `exit` event. -/
inductive RunEvent where
  | stopCall
  | graceFires
  | exited (code : Int)

/-- The synchronous part of `stop-server` on a live handle: clear the
connected-client registry, send SIGTERM, create the stop Promise and start
the 5s grace timer. With no handle the guard throws and nothing changes
(see `stopServerCall` for the returned error). -/
def runStopCall (st : RunState) : RunState :=
  if st.handle then
    { st with registry := [], clearCount := st.clearCount + 1,
              sigtermSent := true, stopRequested := true,
              graceTimerPending := true }
  else st

/-- The 5s grace timer callback (main.js 666-670): send SIGKILL, drop the
handle, and resolve "Server stopped (forced)" immediately — without
waiting for the exit event. -/
def runGraceFires (st : RunState) : RunState :=
  if st.graceTimerPending then
    { st with graceTimerPending := false, sigkillSent := true, handle := false,
              stopSettled := settleP st.stopSettled (JsResult.resolved stopForcedMsg) }
  else st

/-- The process `exit` event while running or stopping. The listener from
`start-server` runs first (drop the handle, clear the registry; its reject
arm is dead here because the start already resolved); then, if a stop is in
flight, the listener added by `stop-server` cancels the grace timer and
resolves "Server stopped gracefully". -/
def runExited (st : RunState) (_code : Int) : RunState :=
  let st1 := { st with handle := false, procAlive := false, exitConfirmed := true,
                       registry := [], clearCount := st.clearCount + 1 }
  if st1.stopRequested then
    { st1 with graceTimerPending := false,
               stopSettled := settleP st1.stopSettled (JsResult.resolved stopGraceMsg) }
  else st1

/-- One event-loop step of the running phase. -/
def runStep (st : RunState) : RunEvent → RunState
  | RunEvent.stopCall => runStopCall st
  | RunEvent.graceFires => runGraceFires st
  | RunEvent.exited code => runExited st code

/-- Run a sequence of running-phase events. -/
def runRun (st : RunState) : List RunEvent → RunState
  | [] => st
  | e :: es => runRun (runStep st e) es

/-- The running phase entered with registry `reg`: live process, no stop in
flight yet. -/
def runInit (reg : Registry) : RunState :=
  { handle := true, procAlive := true, sigtermSent := false, sigkillSent := false,
    stopRequested := false, graceTimerPending := false, stopSettled := none,
    exitConfirmed := false, registry := reg, clearCount := 0 }

/-- The module-level handles read by the guards of the four IPC handlers:
whether `serverProcess` and `clientProcess` are non-null. The handle is
non-null exactly while the role is in a non-terminal state (it is assigned
by `spawn` and nulled on exit, forced stop, dependency error, spawn error
and startup timeout). -/
structure Global where
  serverProcess : Bool
  clientProcess : Bool
deriving DecidableEq

/-- Guard error of a second `start-server` while non-terminal. -/
def srvAlreadyMsg : List Char := "Server is already running".toList

/-- Guard error of `stop-server` with no live server. -/
def srvNotRunningMsg : List Char := "Server is not running".toList

/-- Guard error of a second `start-client` while non-terminal. -/
def cliAlreadyMsg : List Char := "Client is already running".toList

/-- Guard error of `stop-client` with no live client. -/
def cliNotRunningMsg : List Char := "Client is not running".toList

/-- Synchronous prefix of `start-server` (main.js 416-420): the guard throws
"Server is already running" (returned as an error result by the catch)
before any side effect; otherwise the worker is spawned and the handle
set. The rest of a successful start is modelled by `SrvState`. -/
def startServerCall (st : Global) : Global × Option (List Char) :=
  if st.serverProcess then (st, some srvAlreadyMsg)
  else ({ st with serverProcess := true }, none)

/-- Synchronous prefix of `stop-server` (main.js 656-663): the guard throws
"Server is not running" before any side effect; otherwise the registry is
cleared and SIGTERM sent (modelled by `runStopCall`), the handle staying
set until exit or the forced path. -/
def stopServerCall (st : Global) : Global × Option (List Char) :=
  if st.serverProcess then (st, none)
  else (st, some srvNotRunningMsg)

/-- Synchronous prefix of `start-client` (main.js 683-687). -/
def startClientCall (st : Global) : Global × Option (List Char) :=
  if st.clientProcess then (st, some cliAlreadyMsg)
  else ({ st with clientProcess := true }, none)

/-- Synchronous prefix of `stop-client` (main.js 954-960). -/
def stopClientCall (st : Global) : Global × Option (List Char) :=
  if st.clientProcess then (st, none)
  else (st, some cliNotRunningMsg)

/-- A readiness line as the worker emits it. -/
def readyLine : List Char := "Server started successfully".toList

/-- A connection line for peer 10.0.0.5. -/
def connLine : List Char := "New WebSocket connection from 10.0.0.5".toList

/-- A fatal dependency line as the worker emits it on stderr. -/
def depLine : List Char :=
  "ModuleNotFoundError: No module named websockets".toList

theorem splitNl_eq (l : List Char) :
    splitNl l = (splitNlF l).1 ++ [(splitNlF l).2] := by
  induction l with
  | nil => rfl
  | cons c cs ih =>
    by_cases hc : c = '\n'
    · simp [splitNl, splitNlF, hc, ih]
    · simp only [splitNl, splitNlF, hc, if_neg, if_false]
      cases h1 : (splitNlF cs).1 with
      | nil => rw [ih, h1]; simp
      | cons h t => rw [ih, h1]; simp

theorem splitNlF_frag_noNl (l : List Char) : '\n' ∉ (splitNlF l).2 := by
  induction l with
  | nil => simp [splitNlF]
  | cons c cs ih =>
    by_cases hc : c = '\n'
    · simpa [splitNlF, hc] using ih
    · simp only [splitNlF, hc, if_neg, if_false]
      cases h1 : (splitNlF cs).1 with
      | nil => simp [h1] at ih ⊢; exact ⟨fun h => hc h.symm, ih⟩
      | cons h t => simpa [h1] using ih

theorem splitNlF_noNl (l : List Char) (h : '\n' ∉ l) : splitNlF l = ([], l) := by
  induction l with
  | nil => rfl
  | cons c cs ih =>
    simp only [List.mem_cons, not_or] at h
    have hc : ¬(c = '\n') := fun he => h.1 he.symm
    simp [splitNlF, hc, ih h.2]

theorem splitNlF_chain (a b : List Char) :
    splitNlF (a ++ b) =
      ((splitNlF a).1 ++ (splitNlF ((splitNlF a).2 ++ b)).1,
       (splitNlF ((splitNlF a).2 ++ b)).2) := by
  induction a with
  | nil => simp [splitNlF]
  | cons c cs ih =>
    by_cases hc : c = '\n'
    · simp [splitNlF, hc, ih]
    · cases h1 : (splitNlF cs).1 with
      | cons h t => simp [splitNlF, hc, ih, h1]
      | nil =>
        cases h2 : (splitNlF ((splitNlF cs).2 ++ b)).1 with
        | nil => simp [splitNlF, hc, ih, h1, h2]
        | cons h t => simp [splitNlF, hc, ih, h1, h2]

theorem feed_eq (buf chunk : List Char) :
    feed buf chunk = splitNlF (buf ++ chunk) := by
  unfold feed
  rw [Prod.ext_iff]
  constructor <;> simp [splitNl_eq]

theorem feedAll_eq (chunks : List (List Char)) (buf : List Char)
    (h : '\n' ∉ buf) :
    feedAll buf chunks = splitNlF (buf ++ chunks.flatten) := by
  induction chunks generalizing buf with
  | nil => simp [feedAll, splitNlF_noNl buf h]
  | cons ch rest ih =>
    simp only [feedAll, feed_eq, List.flatten_cons, ← List.append_assoc,
      ih _ (splitNlF_frag_noNl _), splitNlF_chain (buf ++ ch) rest.flatten]

theorem settleP_some (r : JsResult) (x : JsResult) :
    settleP (some r) x = some r := rfl

theorem srvStep_keeps_settled (st : SrvState) (e : SrvEvent) (r : JsResult)
    (h : st.settled = some r) : (srvStep st e).settled = some r := by
  cases e <;>
    simp [srvStep, srvStdoutLine, srvStderrLine, srvTimeout, srvProbe,
      srvExited, srvErrored, settleP, apply_ite SrvState.settled, h]

theorem srvRun_keeps_settled (es : List SrvEvent) (st : SrvState) (r : JsResult)
    (h : st.settled = some r) : (srvRun st es).settled = some r := by
  induction es generalizing st with
  | nil => exact h
  | cons e es ih => exact ih _ (srvStep_keeps_settled st e r h)

theorem cliStep_keeps_settled (st : CliState) (e : CliEvent) (r : JsResult)
    (h : st.settled = some r) : (cliStep st e).settled = some r := by
  cases e <;>
    simp [cliStep, cliStdoutLine, cliStderrLine, cliTimeout, cliExited,
      settleP, apply_ite CliState.settled, h]

theorem cliRun_keeps_settled (es : List CliEvent) (st : CliState) (r : JsResult)
    (h : st.settled = some r) : (cliRun st es).settled = some r := by
  induction es generalizing st with
  | nil => exact h
  | cons e es ih => exact ih _ (cliStep_keeps_settled st e r h)

theorem srvStep_after_guard (st : SrvState) (e : SrvEvent)
    (h1 : st.hasResolved = true) (h2 : st.timeoutPending = false) :
    (srvStep st e).settled = st.settled := by
  cases e <;>
    simp [srvStep, srvStdoutLine, srvStderrLine, srvTimeout, srvProbe,
      srvExited, srvErrored, settleP, apply_ite SrvState.settled,
      apply_ite SrvState.hasResolved, h1, h2]

theorem srvStep_inv (st : SrvState) (e : SrvEvent)
    (h : st.hasResolved = true → st.timeoutPending = false) :
    (srvStep st e).hasResolved = true → (srvStep st e).timeoutPending = false := by
  cases e <;>
    simp only [srvStep, srvStdoutLine, srvStderrLine, srvTimeout, srvProbe,
      srvExited, srvErrored] <;>
    split_ifs <;> simp_all

theorem srvRun_inv (es : List SrvEvent) (st : SrvState)
    (h : st.hasResolved = true → st.timeoutPending = false) :
    (srvRun st es).hasResolved = true → (srvRun st es).timeoutPending = false := by
  induction es generalizing st with
  | nil => exact h
  | cons e es ih => exact ih _ (srvStep_inv st e h)

/-- Claim C8: for each stream the line assembler emits every complete line
exactly once and in write order, holding back the trailing fragment after
the last terminator (feeding "abc" then "def\n" yields exactly the line
"abcdef"; feeding "line1\nline2\n" in one chunk yields exactly
["line1","line2"] in order), and lines that are empty or whitespace-only
after trimming are discarded before classification (processing them is a
no-op on the attempt state). -/
theorem claim_C8 :
    (∀ chunks : List (List Char),
        (feedAll [] chunks).1 = (splitNl chunks.flatten).dropLast
      ∧ (feedAll [] chunks).2 = (splitNl chunks.flatten).getLastD [])
  ∧ (feedAll [] ["abc".toList, "def\n".toList]).1 = ["abcdef".toList]
  ∧ (feedAll [] ["line1\nline2\n".toList]).1 = ["line1".toList, "line2".toList]
  ∧ (∀ (st : SrvState) (l : List Char) (now : Nat), jsTrim l = [] →
        srvStdoutLine st l now = st ∧ srvStderrLine st l now = st) := by
  refine ⟨?_, by decide, by decide, ?_⟩
  · intro chunks
    have h := feedAll_eq chunks [] (by simp)
    rw [List.nil_append] at h
    rw [h]
    constructor
    · rw [splitNl_eq]; simp
    · rw [splitNl_eq]; simp
  · intro st l now h
    constructor <;> simp [srvStdoutLine, srvStderrLine, h]

/-- Witness for claim C8 at concrete inputs. -/
theorem claim_C8_witness :
    (feedAll [] ["abc".toList, "def\n".toList]).2
      = (splitNl ["abc".toList, "def\n".toList].flatten).getLastD []
  ∧ srvStdoutLine srvInit "   ".toList 0 = srvInit
  ∧ srvStderrLine srvInit "   ".toList 0 = srvInit := by
  refine ⟨(claim_C8.1 ["abc".toList, "def\n".toList]).2,
    (claim_C8.2.2.2 srvInit "   ".toList 0 (by decide)).1,
    (claim_C8.2.2.2 srvInit "   ".toList 0 (by decide)).2⟩

/-- Claim C1: every start attempt produces at most one outcome — once the
Promise of a start attempt (server or client role) is settled it never
changes, whatever events arrive afterwards; once the server guard
`hasResolved` is set (all guard-setting branches also cancel the startup
timeout) every further event leaves the settled outcome unchanged; and in
the same-tick race of a readiness line with a successful TCP probe exactly
the one outcome Succeeded is produced and no timer of the attempt is left
pending. -/
theorem claim_C1 :
    (∀ (st : SrvState) (es : List SrvEvent) (r : JsResult),
        st.settled = some r → (srvRun st es).settled = some r)
  ∧ (∀ (st : CliState) (es : List CliEvent) (r : JsResult),
        st.settled = some r → (cliRun st es).settled = some r)
  ∧ (∀ (st : SrvState) (e : SrvEvent),
        st.hasResolved = true → st.timeoutPending = false →
        (srvStep st e).settled = st.settled)
  ∧ ((srvRun srvInit [SrvEvent.stdoutLine readyLine 0, SrvEvent.probeFires true]).settled
        = some (JsResult.resolved srvSuccessMsg)
    ∧ (srvRun srvInit [SrvEvent.stdoutLine readyLine 0, SrvEvent.probeFires true]).hasResolved
        = true
    ∧ (srvRun srvInit [SrvEvent.stdoutLine readyLine 0, SrvEvent.probeFires true]).timeoutPending
        = false
    ∧ (srvRun srvInit [SrvEvent.stdoutLine readyLine 0, SrvEvent.probeFires true]).probePending
        = false) := by
  exact ⟨fun st es r h => srvRun_keeps_settled es st r h,
         fun st es r h => cliRun_keeps_settled es st r h,
         fun st e h1 h2 => srvStep_after_guard st e h1 h2,
         by decide⟩

/-- Witness for claim C1 at concrete inputs. -/
theorem claim_C1_witness :
    (srvRun
        { srvInit with
            hasResolved := true
            timeoutPending := false
            settled := some (JsResult.resolved srvSuccessMsg) }
        [SrvEvent.timeoutFires, SrvEvent.probeFires true]).settled
      = some (JsResult.resolved srvSuccessMsg)
  ∧ (cliRun { cliInit with settled := some (JsResult.resolved cliSuccessMsg) }
        [CliEvent.timeoutFires]).settled = some (JsResult.resolved cliSuccessMsg)
  ∧ (srvStep { srvInit with hasResolved := true, timeoutPending := false }
        SrvEvent.timeoutFires).settled
      = ({ srvInit with hasResolved := true, timeoutPending := false } : SrvState).settled := by
  exact ⟨claim_C1.1 _ _ _ rfl, claim_C1.2.1 _ _ _ rfl, claim_C1.2.2.1 _ _ rfl rfl⟩

/-- Counterexample to claim C2: two consecutive connection events for
address 10.0.0.5, inserted at distinct `Date.now()` readings, leave two
registry entries — not the single entry the claim requires. -/
theorem claim_C2_counterexample :
    (parseClientEvents (parseClientEvents [] connLine 1) connLine 2).length = 2
  ∧ ¬((parseClientEvents (parseClientEvents [] connLine 1) connLine 2).length = 1) := by
  decide

/-- Claim C2 as amended: the registry is keyed by the synthesized id
(address plus timestamp), not deduplicated by address — `Map.set` with a
fresh key appends a new entry even when the address already has one, so
two consecutive `PeerConnected` events for 10.0.0.5 with distinct
timestamps leave two entries (both bearing that address); only when the
synthesized ids collide (same-millisecond timestamps) does the second
insertion overwrite and leave one entry. -/
theorem claim_C2_amended :
    (∀ (reg : Registry) (k : List Char) (v : ClientInfo),
        (mapSet reg k v).length =
          if reg.any (fun e => decide (e.1 = k)) then reg.length
          else reg.length + 1)
  ∧ ((parseClientEvents (parseClientEvents [] connLine 1) connLine 2).length = 2
    ∧ (parseClientEvents (parseClientEvents [] connLine 1) connLine 2).all
        (fun e => decide (e.2.address = "10.0.0.5".toList)) = true)
  ∧ (parseClientEvents (parseClientEvents [] connLine 1) connLine 1).length = 1 := by
  refine ⟨?_, by decide, by decide⟩
  intro reg k v
  unfold mapSet
  split
  · simp
  · simp

/-- Counterexample to claim C3: the client-role startup timeout firing with
the process still alive resolves the attempt successfully ("assumed
running after timeout") and kills nothing — not the claimed TimedOut
outcome with forcible termination. -/
theorem claim_C3_counterexample :
    (cliRun cliInit [CliEvent.timeoutFires]).settled
      = some (JsResult.resolved cliAssumedMsg)
  ∧ (cliRun cliInit [CliEvent.timeoutFires]).killSent = false
  ∧ (cliRun cliInit [CliEvent.timeoutFires]).handle = true := by
  decide

/-- Claim C3 as amended: on the server role the startup timeout kills the
worker when the handle is still set and rejects "Server startup timeout";
a dependency error rejects immediately with the offending line but only
drops the handle, without killing the process; on the client role the
timeout rejects (after SIGTERM when a handle is set) only when the process
is not verifiably alive — with the process alive (pid set, exitCode null)
the timeout instead resolves the attempt as success. -/
theorem claim_C3_amended :
    (∀ st : SrvState, st.timeoutPending = true → st.handle = true →
        srvTimeout st =
          { st with
              timeoutPending := false
              killSent := true
              procAlive := false
              handle := false
              settled := settleP st.settled (JsResult.rejected srvTimeoutMsg) })
  ∧ (∀ (st : SrvState) (l : List Char) (now : Nat),
        st.hasResolved = false → jsTrim l ≠ [] →
        containsSub l readyMarker = false →
        (containsSub l importErrLit || containsSub l moduleErrLit) = true →
        (srvStderrLine st l now).settled
            = settleP st.settled (JsResult.rejected (depErrTag ++ l))
        ∧ (srvStderrLine st l now).handle = false
        ∧ (srvStderrLine st l now).killSent = st.killSent
        ∧ (srvStderrLine st l now).procAlive = st.procAlive
        ∧ (srvStderrLine st l now).timeoutPending = false)
  ∧ (∀ st : CliState, st.timeoutPending = true → st.handle = true →
        st.hasPid = true → st.exitCode = none →
        cliTimeout st =
          { st with
              timeoutPending := false
              settled := settleP st.settled (JsResult.resolved cliAssumedMsg) })
  ∧ (∀ st : CliState, st.timeoutPending = true → st.handle = false →
        cliTimeout st =
          { st with
              timeoutPending := false
              handle := false
              settled := settleP st.settled (JsResult.rejected cliTimeoutMsg) }) := by
  refine ⟨?_, ?_, ?_, ?_⟩
  · intro st h1 h2
    simp [srvTimeout, h1, h2]
  · intro st l now h1 h2 h3 h4
    simp [srvStderrLine, h1, h2, h3, h4]
  · intro st h1 h2 h3 h4
    simp [cliTimeout, h1, h2, h3, h4]
  · intro st h1 h2
    simp [cliTimeout, h1, h2]

/-- Witness for the amended claim C3 at concrete inputs. -/
theorem claim_C3_amended_witness :
    srvTimeout srvInit =
      { srvInit with
          timeoutPending := false
          killSent := true
          procAlive := false
          handle := false
          settled := settleP srvInit.settled (JsResult.rejected srvTimeoutMsg) }
  ∧ (srvStderrLine srvInit depLine 0).handle = false
  ∧ cliTimeout cliInit =
      { cliInit with
          timeoutPending := false
          settled := settleP cliInit.settled (JsResult.resolved cliAssumedMsg) } := by
  exact ⟨claim_C3_amended.1 srvInit rfl rfl,
    (claim_C3_amended.2.1 srvInit depLine 0 rfl (by decide) (by decide) (by decide)).2.1,
    claim_C3_amended.2.2.1 cliInit rfl rfl rfl rfl⟩

/-- Counterexample to claim C4: after the attempt resolves Succeeded on a
readiness line, the delayed TCP-probe timer is still pending — it was
never cancelled, contradicting "every pending timer belonging to that
attempt is cancelled". -/
theorem claim_C4_counterexample :
    (srvRun srvInit [SrvEvent.stdoutLine readyLine 0]).settled
      = some (JsResult.resolved srvSuccessMsg)
  ∧ (srvRun srvInit [SrvEvent.stdoutLine readyLine 0]).hasResolved = true
  ∧ (srvRun srvInit [SrvEvent.stdoutLine readyLine 0]).probePending = true := by
  decide

/-- Claim C4 as amended: whenever a start attempt resolves Succeeded or
FailedFatal the startup-timeout timer is cancelled (from the initial state,
`hasResolved` always implies the timeout is no longer pending), but the
delayed TCP-probe timer is never cancelled by any handler — it stays
pending until it fires, and firing after resolution leaves the attempt
unchanged apart from consuming the timer, because the probe callbacks
re-check the resolution guard. -/
theorem claim_C4_amended :
    (∀ es : List SrvEvent, (srvRun srvInit es).hasResolved = true →
        (srvRun srvInit es).timeoutPending = false)
  ∧ (∀ (st : SrvState) (l : List Char) (now : Nat),
        (srvStdoutLine st l now).probePending = st.probePending
      ∧ (srvStderrLine st l now).probePending = st.probePending)
  ∧ (∀ st : SrvState, (srvTimeout st).probePending = st.probePending)
  ∧ (∀ (st : SrvState) (code : Int),
        (srvExited st code).probePending = st.probePending)
  ∧ (∀ (st : SrvState) (msg : List Char),
        (srvErrored st msg).probePending = st.probePending)
  ∧ (∀ (st : SrvState) (ok : Bool), st.hasResolved = true →
        srvProbe st ok = { st with probePending := false }) := by
  refine ⟨?_, ?_, ?_, ?_, ?_, ?_⟩
  · exact fun es => srvRun_inv es srvInit (fun h => absurd h (by decide))
  · intro st l now
    constructor <;>
      simp [srvStdoutLine, srvStderrLine, apply_ite SrvState.probePending]
  · intro st
    simp [srvTimeout, apply_ite SrvState.probePending]
  · intro st code
    simp [srvExited, apply_ite SrvState.probePending]
  · intro st msg
    simp [srvErrored, apply_ite SrvState.probePending]
  · intro st ok h
    cases st
    simp only [srvProbe]
    split_ifs <;> simp_all

/-- Witness for the amended claim C4 at concrete inputs. -/
theorem claim_C4_amended_witness :
    (srvRun srvInit [SrvEvent.stdoutLine readyLine 0]).timeoutPending = false
  ∧ srvProbe { srvInit with hasResolved := true } true
      = { { srvInit with hasResolved := true } with probePending := false } := by
  exact ⟨claim_C4_amended.1 [SrvEvent.stdoutLine readyLine 0] (by decide),
    claim_C4_amended.2.2.2.2.2 { srvInit with hasResolved := true } true rfl⟩

/-- Counterexample to claim C5: when the grace timer fires first, stop()
resolves "Server stopped (forced)" immediately after sending SIGKILL,
with the process exit never confirmed — contradicting "resolves 'stopped
(forced)' only once the process exit is confirmed". -/
theorem claim_C5_counterexample :
    (runRun (runInit []) [RunEvent.stopCall, RunEvent.graceFires]).stopSettled
      = some (JsResult.resolved stopForcedMsg)
  ∧ (runRun (runInit []) [RunEvent.stopCall, RunEvent.graceFires]).exitConfirmed
      = false
  ∧ (runRun (runInit []) [RunEvent.stopCall, RunEvent.graceFires]).sigkillSent
      = true := by
  decide

/-- Claim C5 as amended: if the process confirms exit within the grace
period, stop() resolves "Server stopped gracefully" and the grace timer is
cancelled (as claimed); if the grace timer fires first, SIGKILL is sent
and stop() resolves "Server stopped (forced)" immediately, without
waiting for the process exit to be confirmed. -/
theorem claim_C5_amended : ∀ reg : Registry,
    ((runRun (runInit reg) [RunEvent.stopCall, RunEvent.exited 0]).stopSettled
        = some (JsResult.resolved stopGraceMsg)
    ∧ (runRun (runInit reg) [RunEvent.stopCall, RunEvent.exited 0]).graceTimerPending
        = false
    ∧ (runRun (runInit reg) [RunEvent.stopCall, RunEvent.exited 0]).exitConfirmed
        = true)
  ∧ ((runRun (runInit reg) [RunEvent.stopCall, RunEvent.graceFires]).stopSettled
        = some (JsResult.resolved stopForcedMsg)
    ∧ (runRun (runInit reg) [RunEvent.stopCall, RunEvent.graceFires]).sigkillSent
        = true
    ∧ (runRun (runInit reg) [RunEvent.stopCall, RunEvent.graceFires]).exitConfirmed
        = false)
  ∧ (runStopCall (runInit reg)).sigtermSent = true := by
  intro reg
  exact ⟨⟨rfl, rfl, rfl⟩, ⟨rfl, rfl, rfl⟩, rfl⟩

/-- Counterexample to claim C6: a stop() followed by the process exit
clears the connected-client registry twice — once eagerly in the stop
handler and once in the exit handler — not exactly once at the moment
Stopped is entered. -/
theorem claim_C6_counterexample :
    (runRun
        (runInit (parseClientEvents (parseClientEvents [] connLine 1) connLine 2))
        [RunEvent.stopCall, RunEvent.exited 0]).clearCount = 2
  ∧ ¬((runRun
        (runInit (parseClientEvents (parseClientEvents [] connLine 1) connLine 2))
        [RunEvent.stopCall, RunEvent.exited 0]).clearCount = 1) := by
  decide

/-- Claim C6 as amended: on every path by which the supervised server
process reaches Stopped the peer list ends empty, but the registry is not
cleared exactly once at the moment Stopped is entered: stop() clears it
eagerly when invoked and the exit handler clears it again when the exit
event arrives (twice on a stop-then-exit path), while an unsolicited exit
or a forced stop whose exit is never observed clears it once. -/
theorem claim_C6_amended : ∀ reg : Registry,
    ((runRun (runInit reg) [RunEvent.stopCall, RunEvent.exited 0]).clearCount = 2
    ∧ (runRun (runInit reg) [RunEvent.stopCall, RunEvent.exited 0]).registry = [])
  ∧ ((runRun (runInit reg) [RunEvent.exited 1]).clearCount = 1
    ∧ (runRun (runInit reg) [RunEvent.exited 1]).registry = [])
  ∧ ((runRun (runInit reg) [RunEvent.stopCall, RunEvent.graceFires]).clearCount = 1
    ∧ (runRun (runInit reg) [RunEvent.stopCall, RunEvent.graceFires]).registry = [])
  ∧ ((runRun (runInit reg)
        [RunEvent.stopCall, RunEvent.graceFires, RunEvent.exited 0]).clearCount = 2
    ∧ (runRun (runInit reg)
        [RunEvent.stopCall, RunEvent.graceFires, RunEvent.exited 0]).registry = []) := by
  intro reg
  exact ⟨⟨rfl, rfl⟩, ⟨rfl, rfl⟩, ⟨rfl, rfl⟩, ⟨rfl, rfl⟩⟩

/-- Claim C7: a stderr line carrying a fatal-dependency substring
(`ImportError` / `ModuleNotFoundError`), classified before any readiness
signal (the attempt still unresolved and the line not containing the
readiness marker), resolves the attempt FailedFatal in that very step —
rejecting with "Python dependency error:" plus the offending line,
clearing the startup timeout, and dropping the handle — without waiting
for the timeout or the delayed TCP probe. -/
theorem claim_C7 : ∀ (st : SrvState) (l : List Char) (now : Nat),
    st.settled = none → st.hasResolved = false → jsTrim l ≠ [] →
    containsSub l readyMarker = false →
    (containsSub l importErrLit || containsSub l moduleErrLit) = true →
    (srvStderrLine st l now).settled = some (JsResult.rejected (depErrTag ++ l))
  ∧ (srvStderrLine st l now).hasResolved = true
  ∧ (srvStderrLine st l now).timeoutPending = false
  ∧ (srvStderrLine st l now).handle = false := by
  intro st l now h0 h1 h2 h3 h4
  simp [srvStderrLine, h0, h1, h2, h3, h4, settleP]

/-- Witness for claim C7 at a concrete dependency-error line. -/
theorem claim_C7_witness :
    (srvStderrLine srvInit depLine 0).settled
      = some (JsResult.rejected (depErrTag ++ depLine)) := by
  exact (claim_C7 srvInit depLine 0 rfl rfl (by decide) (by decide) (by decide)).1

/-- Claim C9: `start` fails with "already running" exactly when the role's
process handle is still set (the handle is non-null exactly while the role
is non-terminal), and a failing call returns the state untouched; `stop`
fails with "not running" exactly when no handle is set, also leaving the
state untouched; both guards run synchronously before any side effect,
for the server and the client role alike. -/
theorem claim_C9 : ∀ st : Global,
    ((startServerCall st).2.isSome ↔ st.serverProcess = true)
  ∧ (st.serverProcess = true → startServerCall st = (st, some srvAlreadyMsg))
  ∧ ((stopServerCall st).2.isSome ↔ st.serverProcess = false)
  ∧ (st.serverProcess = false → stopServerCall st = (st, some srvNotRunningMsg))
  ∧ ((startClientCall st).2.isSome ↔ st.clientProcess = true)
  ∧ (st.clientProcess = true → startClientCall st = (st, some cliAlreadyMsg))
  ∧ ((stopClientCall st).2.isSome ↔ st.clientProcess = false)
  ∧ (st.clientProcess = false → stopClientCall st = (st, some cliNotRunningMsg)) := by
  intro st
  cases st with
  | mk sp cp =>
    cases sp <;> cases cp <;>
      simp [startServerCall, stopServerCall, startClientCall, stopClientCall]

/-- Witness for claim C9 at concrete global states. -/
theorem claim_C9_witness :
    startServerCall ⟨true, false⟩ = (⟨true, false⟩, some srvAlreadyMsg)
  ∧ stopServerCall ⟨false, false⟩ = (⟨false, false⟩, some srvNotRunningMsg) := by
  exact ⟨(claim_C9 ⟨true, false⟩).2.1 rfl, (claim_C9 ⟨false, false⟩).2.2.2.1 rfl⟩

/-- Claim C10 (implicit): if the server worker exits with code 0 before the
attempt has resolved, the exit handler settles nothing (it rejects only
non-zero codes) and leaves the startup timeout pending; the caller gets an
outcome only when the timeout later fires and rejects "Server startup
timeout" — without any kill, the process being already gone. -/
theorem claim_C10 : ∀ st : SrvState,
    st.hasResolved = false → st.settled = none → st.timeoutPending = true →
    (srvExited st 0).settled = none
  ∧ (srvExited st 0).timeoutPending = true
  ∧ (srvExited st 0).handle = false
  ∧ (∀ code : Int, code ≠ 0 →
      (srvExited st code).settled
        = some (JsResult.rejected (srvExitMsg code st.allOutput)))
  ∧ (srvRun st [SrvEvent.exited 0, SrvEvent.timeoutFires]).settled
      = some (JsResult.rejected srvTimeoutMsg)
  ∧ (srvRun st [SrvEvent.exited 0, SrvEvent.timeoutFires]).killSent = st.killSent := by
  intro st h1 h2 h3
  refine ⟨?_, ?_, ?_, ?_, ?_, ?_⟩
  · simp [srvExited, h1, h2, h3]
  · simp [srvExited, h1, h2, h3]
  · simp [srvExited, h1, h2, h3]
  · intro code hc
    simp [srvExited, h1, h2, hc, settleP]
  · simp [srvRun, srvStep, srvExited, srvTimeout, h1, h2, h3, settleP]
  · simp [srvRun, srvStep, srvExited, srvTimeout, h1, h2, h3, settleP]

/-- Witness for claim C10 at the initial attempt state. -/
theorem claim_C10_witness :
    (srvRun srvInit [SrvEvent.exited 0, SrvEvent.timeoutFires]).settled
      = some (JsResult.rejected srvTimeoutMsg)
  ∧ (srvExited srvInit 1).settled
      = some (JsResult.rejected (srvExitMsg 1 srvInit.allOutput)) := by
  exact ⟨(claim_C10 srvInit rfl rfl rfl).2.2.2.2.1,
    (claim_C10 srvInit rfl rfl rfl).2.2.2.1 1 (by decide)⟩
